import Mathlib

/-!
Verification of `src/ExcelFormatter2.py` (PLAWD/ExcelCounter).

This file gives a shallow embedding of the program's core:
date-value normalization (`fix_date`), region-label normalization
(`normalize_region` and `region_map`), the full-rebuild summary writer
(`write_full_summary_list`), the incremental summary updater
(`create_or_update_summary_list`) and the per-file aggregation pipeline of
`process_excels` (processed-file ledger, per-sheet extraction, global
region-by-date counts).  Python `datetime.date` values are modelled by
`PyDate`, raw spreadsheet cell values by `Cell`, worksheets by explicit
grids, and dictionaries by insertion-ordered association lists.
-/

set_option autoImplicit false
set_option maxRecDepth 100000

/-- Proleptic Gregorian calendar date, as Python's `datetime.date`. -/
structure PyDate where
  year : Nat
  month : Nat
  day : Nat
deriving DecidableEq

/-- The Gregorian leap-year rule used by Python's `datetime` module. -/
def isLeap (y : Nat) : Bool :=
  y % 4 == 0 && (y % 100 != 0 || y % 400 == 0)

/-- Number of days in month `m` of year `y` (Gregorian). -/
def daysInMonth (y m : Nat) : Nat :=
  if m == 2 then (if isLeap y then 29 else 28)
  else if m == 4 || m == 6 || m == 9 || m == 11 then 30
  else 31

/-- The calendar successor of a date. -/
def nextDay (d : PyDate) : PyDate :=
  if d.day < daysInMonth d.year d.month then ⟨d.year, d.month, d.day + 1⟩
  else if d.month < 12 then ⟨d.year, d.month + 1, 1⟩
  else ⟨d.year + 1, 1, 1⟩

/-- `d + timedelta(days := n)` for `n ≥ 0`: iterated calendar successor. -/
def addDays (d : PyDate) : Nat → PyDate
  | 0 => d
  | n + 1 => nextDay (addDays d n)

/-- `datetime.date(y, m, d)` succeeds exactly on these triples
(years 1..9999, valid month, day within the month). -/
def validDate (y m d : Nat) : Bool :=
  1 ≤ y && y ≤ 9999 && 1 ≤ m && m ≤ 12 && 1 ≤ d && d ≤ daysInMonth y m

/-- `datetime.date(y, m, d)`, with `ValueError` modelled as `none`. -/
def mkPyDate (y m d : Nat) : Option PyDate :=
  if validDate y m d then some ⟨y, m, d⟩ else none

/-- Lexicographic order on calendar dates. -/
def dateLe (a b : PyDate) : Bool :=
  a.year < b.year ||
  (a.year == b.year &&
    (a.month < b.month || (a.month == b.month && a.day ≤ b.day)))

/-- Numeric branch of `fix_date` (source lines 330-347): Excel-serial
conversion.  Mirrors the source exactly: serials below 60 use the epoch
1899-12-30, serials from 60 on use the epoch 1899-12-31 with the serial
decremented by one — the two branches therefore compute the same date and
the intended fake-leap-day correction has no effect.  Python's
`OverflowError` past year 9999 (caught by the source's bare `except`) is
the final guard.  `Int` models `int` cell values and integral `float`s
(`int(val)` truncation). -/
def fixDateSerial (n : Int) : Option PyDate :=
  if 1 ≤ n then
    let r := if n < 60 then addDays ⟨1899, 12, 30⟩ n.toNat
             else addDays ⟨1899, 12, 31⟩ (n - 1).toNat
    if r.year ≤ 9999 then some r else none
  else none

/-- ASCII whitespace, Python's regex class for backslash-s and the
characters `str.strip()` removes (the data contains no exotic whitespace). -/
def isSpaceChar (c : Char) : Bool :=
  c == ' ' || c == '\t' || c == '\n' || c == '\r' || c == '\x0b' || c == '\x0c'

def trimChars (cs : List Char) : List Char :=
  ((cs.dropWhile isSpaceChar).reverse.dropWhile isSpaceChar).reverse

/-- Python `str.strip()`. -/
def pyStrip (s : String) : String := String.mk (trimChars s.data)

/-- ASCII upper-casing of one character, as Python `str.upper()` acts on the
region labels and aliases (all ASCII). -/
def upChar (c : Char) : Char :=
  if 'a' ≤ c && c ≤ 'z' then Char.ofNat (c.toNat - 32) else c

def lowChar (c : Char) : Char :=
  if 'A' ≤ c && c ≤ 'Z' then Char.ofNat (c.toNat + 32) else c

/-- Python `str.lower()` (ASCII). -/
def pyLower (s : String) : String := String.mk (s.data.map lowChar)

def dateSepChar (c : Char) : Bool := c == '/' || c == '-'

def rangeSepChar (c : Char) : Bool := c == '-' || c == '–'

/-- Exactly `n` decimal digits from the front of the input. -/
def takeDigits : Nat → List Char → Option (List Char × List Char)
  | 0, cs => some ([], cs)
  | _ + 1, [] => none
  | n + 1, c :: cs =>
    if c.isDigit then (takeDigits n cs).map (fun p => (c :: p.1, p.2)) else none

def digitsVal (ds : List Char) : Nat := ds.foldl (fun a c => a * 10 + (c.toNat - 48)) 0

/-- One `\d{4} sep \d{2} sep \d{2}` date of the range regexes (each
separator independently a slash or a hyphen), returning
(year, month, day, rest of input). -/
def parseFullDate (cs : List Char) : Option (Nat × Nat × Nat × List Char) := do
  let (yd, r1) ← takeDigits 4 cs
  match r1 with
  | s1 :: r2 =>
    if dateSepChar s1 then do
      let (md, r3) ← takeDigits 2 r2
      match r3 with
      | s2 :: r4 =>
        if dateSepChar s2 then do
          let (dd, r5) ← takeDigits 2 r4
          some (digitsVal yd, digitsVal md, digitsVal dd, r5)
        else none
      | [] => none
    else none
  | [] => none

/-- `fix_date` range patterns 1 and 3 (lines 244-251, 272-279): a full
`YYYY/MM/DD - YYYY/MM/DD` range anchored on the whole string, with optional
whitespace around the dash when `allowWs` is true; yields the end date's
digits.  The dash may be a hyphen or an en-dash, each date separator is `/`
or `-` independently. -/
def pat1Match (allowWs : Bool) (cs : List Char) : Option (Nat × Nat × Nat) :=
  match parseFullDate cs with
  | none => none
  | some (_, _, _, r1) =>
    let r1 := if allowWs then r1.dropWhile isSpaceChar else r1
    match r1 with
    | [] => none
    | c :: r2 =>
      if rangeSepChar c then
        let r2 := if allowWs then r2.dropWhile isSpaceChar else r2
        match parseFullDate r2 with
        | some (y, m, d, []) => some (y, m, d)
        | _ => none
      else none

/-- `fix_date` range patterns 2 and 4 (lines 253-270, 281-298): a
`YYYY/MM/DD-DD` range with a two-digit trailing day, anchored on the whole
string; yields (year, month, start day, end day). -/
def pat2Match (allowWs : Bool) (cs : List Char) : Option (Nat × Nat × Nat × Nat) := do
  let (yd, r1) ← takeDigits 4 cs
  match r1 with
  | s1 :: r2 =>
    if dateSepChar s1 then do
      let (md, r3) ← takeDigits 2 r2
      match r3 with
      | s2 :: r4 =>
        if dateSepChar s2 then do
          let (sd, r5) ← takeDigits 2 r4
          let r5 := if allowWs then r5.dropWhile isSpaceChar else r5
          match r5 with
          | c :: r6 =>
            if rangeSepChar c then do
              let r6 := if allowWs then r6.dropWhile isSpaceChar else r6
              let (ed, r7) ← takeDigits 2 r6
              if r7.isEmpty then
                some (digitsVal yd, digitsVal md, digitsVal sd, digitsVal ed)
              else none
            else none
          | [] => none
        else none
      | [] => none
    else none
  | [] => none

/-- End-of-range computation shared by patterns 2 and 4 (lines 260-270 and
288-298): if the trailing day is numerically less than the start day the
month rolls forward, and past December the year rolls forward; an invalid
resulting `date(...)` raises and is swallowed (`except: pass`), modelled as
`none`. -/
def rollEndDay (y m sd ed : Nat) : Option PyDate :=
  if ed < sd then
    if m == 12 then mkPyDate (y + 1) 1 ed else mkPyDate y (m + 1) ed
  else mkPyDate y m ed

/-- `pd.to_datetime(end_str, errors='coerce').date()` on a captured
`YYYY sep MM sep DD` group (patterns 1 and 3): parsed year-month-day, with
`NaT` — filtered upstream exactly like `None` — for an invalid date or one
outside the `pd.Timestamp` range 1677-09-22 .. 2262-04-11.  dateutil's
day/month swap heuristic cannot trigger for this digit shape and is not
modelled. -/
def pdYMD (y m d : Nat) : Option PyDate :=
  match mkPyDate y m d with
  | some dt =>
    if dateLe ⟨1677, 9, 22⟩ dt && dateLe dt ⟨2262, 4, 11⟩ then some dt else none
  | none => none

/-- Order of the date components in a `strptime` format string. -/
inductive FmtOrder where
  | ymd
  | dmy
  | mdy
deriving DecidableEq

/-- CPython `_strptime` matches `%Y` as exactly four digits. -/
def yearAlt (cs : List Char) : List (Nat × List Char) :=
  match takeDigits 4 cs with
  | some (ds, r) => [(digitsVal ds, r)]
  | none => []

/-- CPython `_strptime` matches `%m` by the regex `1[0-2]|0[1-9]|[1-9]`;
the candidate parses are listed in the regex's alternation order. -/
def monthAlts (cs : List Char) : List (Nat × List Char) :=
  (match cs with
   | '1' :: c :: r => if '0' ≤ c && c ≤ '2' then [(10 + (c.toNat - 48), r)] else []
   | _ => []) ++
  (match cs with
   | '0' :: c :: r => if '1' ≤ c && c ≤ '9' then [(c.toNat - 48, r)] else []
   | _ => []) ++
  (match cs with
   | c :: r => if '1' ≤ c && c ≤ '9' then [(c.toNat - 48, r)] else []
   | _ => [])

/-- CPython `_strptime` matches `%d` by the regex `3[01]|[12]\d|0[1-9]|[1-9]`. -/
def dayAlts (cs : List Char) : List (Nat × List Char) :=
  (match cs with
   | '3' :: c :: r => if c == '0' || c == '1' then [(30 + (c.toNat - 48), r)] else []
   | _ => []) ++
  (match cs with
   | c1 :: c2 :: r =>
     if (c1 == '1' || c1 == '2') && c2.isDigit then
       [((c1.toNat - 48) * 10 + (c2.toNat - 48), r)]
     else []
   | _ => []) ++
  (match cs with
   | '0' :: c :: r => if '1' ≤ c && c ≤ '9' then [(c.toNat - 48, r)] else []
   | _ => []) ++
  (match cs with
   | c :: r => if '1' ≤ c && c ≤ '9' then [(c.toNat - 48, r)] else []
   | _ => [])

/-- A literal separator of a format string; `strptime` treats whitespace in
the format as one-or-more whitespace characters. -/
def sepAlt (sep : Char) (cs : List Char) : List (List Char) :=
  if sep == ' ' then
    match cs with
    | c :: r => if isSpaceChar c then [r.dropWhile isSpaceChar] else []
    | [] => []
  else
    match cs with
    | c :: r => if c == sep then [r] else []
    | [] => []

inductive FPart where
  | fy
  | fm
  | fd

def partAlts : FPart → List Char → List (Nat × List Char)
  | .fy, cs => yearAlt cs
  | .fm, cs => monthAlts cs
  | .fd, cs => dayAlts cs

def orderParts : FmtOrder → List FPart
  | .ymd => [.fy, .fm, .fd]
  | .dmy => [.fd, .fm, .fy]
  | .mdy => [.fm, .fd, .fy]

/-- Backtracking scan of the format's parts over the whole string, in the
regex engine's priority order; the last part must consume the input
(`strptime` rejects unconverted trailing data). -/
def scanParts (sep : Char) : List FPart → List Char → Option (List Nat)
  | [], cs => if cs.isEmpty then some [] else none
  | [p], cs =>
    (partAlts p cs).findSome? (fun v => if v.2.isEmpty then some [v.1] else none)
  | p :: ps, cs =>
    (partAlts p cs).findSome? (fun v =>
      (sepAlt sep v.2).findSome? (fun r2 => (scanParts sep ps r2).map (v.1 :: ·)))

/-- The regex phase of `datetime.strptime(val, fmt)` for the source's ten
formats: the first complete match in priority order, as (year, month, day). -/
def strptimeScan (ord : FmtOrder) (sep : Char) (cs : List Char) : Option (Nat × Nat × Nat) :=
  match scanParts sep (orderParts ord) cs with
  | some [a, b, c] =>
    match ord with
    | .ymd => some (a, b, c)
    | .dmy => some (c, b, a)
    | .mdy => some (c, a, b)
  | _ => none

/-- The `formats` list of `fix_date` (lines 300-312), as component order and
separator. -/
def formatsList : List (FmtOrder × Char) :=
  [(.ymd, '-'), (.dmy, '/'), (.mdy, '/'), (.ymd, '/'), (.dmy, '-'),
   (.mdy, '-'), (.dmy, '.'), (.ymd, '.'), (.dmy, ' '), (.ymd, ' ')]

/-- The format loop of `fix_date` (lines 314-318): first format whose regex
matches and whose matched components form a real date wins; a `ValueError`
from `datetime(...)` falls through to the next format. -/
def tryFormats : List (FmtOrder × Char) → List Char → Option PyDate
  | [], _ => none
  | f :: rest, cs =>
    match strptimeScan f.1 f.2 cs with
    | some (y, m, d) =>
      match mkPyDate y m d with
      | some dt => some dt
      | none => tryFormats rest cs
    | none => tryFormats rest cs

/-- The last resort of `fix_date` (lines 320-326):
`pd.to_datetime(val, errors='coerce', dayfirst=True)`, a permissive
natural-language parser living in the pandas/dateutil libraries, outside
this repository.  Modelled as parsing nothing; no input that matches one of
the range patterns or exact formats reaches it, and its callers filter a
non-result exactly like an unparseable string. -/
def pdPermissiveParse (_val : String) : Option PyDate := none

def fixDateStrFormats (cs : List Char) (val : String) : Option PyDate :=
  match tryFormats formatsList cs with
  | some dt => some dt
  | none => pdPermissiveParse val

/-- Range pattern 4 of `fix_date` (lines 281-298), then the exact formats. -/
def fixDateStrPat4 (cs : List Char) (val : String) : Option PyDate :=
  match pat2Match false cs with
  | some (y, m, sd, ed) =>
    match rollEndDay y m sd ed with
    | some dt => some dt
    | none => fixDateStrFormats cs val
  | none => fixDateStrFormats cs val

/-- Range pattern 3 of `fix_date` (lines 272-279), then pattern 4. -/
def fixDateStrPat3 (cs : List Char) (val : String) : Option PyDate :=
  match pat1Match false cs with
  | some (y, m, d) => pdYMD y m d
  | none => fixDateStrPat4 cs val

/-- The string branch of `fix_date` (lines 236-328): strip, reject the empty
string, then range patterns 1-4 in order, then the ten exact formats, then
the permissive fallback. -/
def fixDateStr (s : String) : Option PyDate :=
  let val := pyStrip s
  if val = "" then none
  else
    let cs := val.data
    match pat1Match true cs with
    | some (y, m, d) => pdYMD y m d
    | none =>
      match pat2Match true cs with
      | some (y, m, sd, ed) =>
        match rollEndDay y m sd ed with
        | some dt => some dt
        | none => fixDateStrPat3 cs val
      | none => fixDateStrPat3 cs val

/-- A raw spreadsheet cell value as pandas hands it to the program.
`num n` models `int` cells and integral `float` cells (`fix_date` truncates
floats with `int(val)` after its `val >= 1` guard, and `normalize_region`
renders an integral float as its integer string); non-integral floats occur
in no claim.  `nan` is the float NaN pandas uses for blank cells; `empty` is
Python `None`. -/
inductive Cell where
  | text (s : String)
  | num (n : Int)
  | nan
  | date (d : PyDate)
  | empty
deriving DecidableEq

/-- `fix_date` (lines 222-347): tolerant date parsing.  `None` and NaN give
`None`; datetime/date cells are truncated to their calendar date; strings go
through `fixDateStr`; numbers are Excel serials via `fixDateSerial`. -/
def fix_date (val : Cell) : Option PyDate :=
  match val with
  | .empty => none
  | .nan => none
  | .date d => some d
  | .text s => fixDateStr s
  | .num n => fixDateSerial n

/-- The fixed canonical region row order (lines 8-13 and 420-425 of the
source, identical lists). -/
def regions : List String :=
  ["NCR", "Region I", "Region II", "Region III", "Region IV",
   "MIMAROPA", "Region V", "Region VI", "Region VII", "Region VIII",
   "Region IX", "Region X", "Region XI", "Region XII", "CAR",
   "Region XIII", "BARMM", "Unidentified"]

/-- `calendar.month_abbr`: index 0 is the empty string. -/
def month_abbr : List String :=
  ["", "Jan", "Feb", "Mar", "Apr", "May", "Jun",
   "Jul", "Aug", "Sep", "Oct", "Nov", "Dec"]

/-- `format_date_header` (lines 349-351): day, hyphen, month abbreviation,
with no zero padding on the day. -/
def format_date_header (d : PyDate) : String :=
  toString d.day ++ "-" ++ month_abbr.getD d.month ""

/-- `region_map` (lines 627-653), verbatim, repeated aliases included. -/
def region_map : List (String × List String) :=
  [("NCR", ["NCR"]),
   ("Region I", ["REGION 1", "REGION I", "I", "1", "REGION1", "REGIONI"]),
   ("Region II", ["REGION 2", "REGION II", "II", "2", "REGION2", "REGIONII"]),
   ("Region III", ["REGION 3", "REGION III", "III", "3", "REGION3", "REGIONIII"]),
   ("Region IV",
    ["REGION 4", "REGION IV", "IV", "4", "REGION4", "REGIONIV",
     "REGION 4A", "REGION IV-A", "IV-A", "4A", "IVA", "REGION4A", "REGIONIVA",
     "REGION 4B", "REGION IV-B", "IV-B", "4B", "IVB", "REGION4B", "REGIONIVB",
     "REGIONIV-B", "REGION IVB", "REGION IV B", "REGION 4 B", "4-B", "IV B",
     "IV-B", "4-B", "IVB", "4 B"]),
   ("MIMAROPA",
    ["MIMAROPA", "REGION MIMAROPA", "REGION-MIMAROPA", "REGION_MIMAROPA",
     "REGIONMIMAROPA", "M I M A R O P A", "MIMAROPA REGION"]),
   ("Region V", ["REGION 5", "REGION V", "V", "5", "REGION5", "REGIONV"]),
   ("Region VI", ["REGION 6", "REGION VI", "VI", "6", "REGION6", "REGIONVI"]),
   ("Region VII", ["REGION 7", "REGION VII", "VII", "7", "REGION7", "REGIONVII"]),
   ("Region VIII", ["REGION 8", "REGION VIII", "VIII", "8", "REGION8", "REGIONVIII"]),
   ("Region IX", ["REGION 9", "REGION IX", "IX", "9", "REGION9", "REGIONIX"]),
   ("Region X", ["REGION 10", "REGION X", "X", "10", "REGION10", "REGIONX"]),
   ("Region XI", ["REGION 11", "REGION XI", "XI", "11", "REGION11", "REGIONXI"]),
   ("Region XII", ["REGION 12", "REGION XII", "XII", "12", "REGION12", "REGIONXII"]),
   ("Region XIII", ["REGION 13", "REGION XIII", "XIII", "13", "REGION13", "REGIONXIII"]),
   ("CAR", ["CAR"]),
   ("BARMM", ["BARMM", "Barmm"])]

/-- Upper-case, then delete hyphens and spaces: the normal form the source
computes for both cell values and aliases
(`.upper().replace(hyphen, nothing).replace(space, nothing)`). -/
def canonChars (cs : List Char) : List Char :=
  (cs.map upChar).filter (fun c => !(c == '-' || c == ' '))

/-- `alias.strip().upper().replace(...)` of line 680; the same normal form
is applied to the stripped cell value at line 677. -/
def alias_norm (a : String) : String := String.mk (canonChars (trimChars a.data))

/-- The alias-table scan of `normalize_region` (lines 678-682): the first
region, in insertion order, having an alias with the given normal form. -/
def lookupRegionNorm (k : String) : List (String × List String) → Option String
  | [] => none
  | p :: rest =>
    if p.2.any (fun a => alias_norm a == k) then some p.1
    else lookupRegionNorm k rest

/-- Residual Region IV patterns of line 684, verbatim (the entries that
still contain a hyphen or a space can never equal a normal form). -/
def fourBPatterns : List String := ["4B", "IVB", "IV-B", "4-B", "IV B", "4 B"]

/-- Residual MIMAROPA patterns of line 687, verbatim. -/
def mimaropaPatterns : List String :=
  ["MIMAROPA", "REGIONMIMAROPA", "REGION-MIMAROPA", "REGION_MIMAROPA",
   "MIMAROPAREGION", "MIMAROPAA"]

def pad2 (n : Nat) : String := if n < 10 then "0" ++ toString n else toString n

def pad4 (n : Nat) : String :=
  if n < 10 then "000" ++ toString n
  else if n < 100 then "00" ++ toString n
  else if n < 1000 then "0" ++ toString n
  else toString n

/-- Python `str` of a `datetime.date`: zero-padded ISO form. -/
def dateStr (d : PyDate) : String :=
  pad4 d.year ++ "-" ++ pad2 d.month ++ "-" ++ pad2 d.day

/-- The string path of `normalize_region` (lines 674-689): strip, blank to
Unidentified, normalize, scan the alias table, then the two residual
pattern lists, else Unidentified. -/
def normalizeRegionStr (s : String) : String :=
  let val := pyStrip s
  if val = "" then "Unidentified"
  else
    let val_norm := String.mk (canonChars val.data)
    match lookupRegionNorm val_norm region_map with
    | some std => std
    | none =>
      if fourBPatterns.contains val_norm then "Region IV"
      else if mimaropaPatterns.contains val_norm then "MIMAROPA"
      else "Unidentified"

/-- `normalize_region` (lines 656-689): `None` and NaN give Unidentified;
ints and integer-valued floats are rendered as their integer string; every
other value is rendered with `str`; the string path decides. -/
def normalize_region (val : Cell) : String :=
  match val with
  | .empty => "Unidentified"
  | .nan => "Unidentified"
  | .num n => normalizeRegionStr (toString n)
  | .date d => normalizeRegionStr (dateStr d)
  | .text s => normalizeRegionStr s

/-- The summary worksheet as the incremental updater sees it: column-A row
labels from sheet row 3 down (index i is sheet row i+3), row-2 header
strings from column B right (index j is sheet column j+2), and the data
cells; a missing entry is an unset cell, which openpyxl reads as `None`. -/
structure Ws where
  rowLabels : List String
  colHeaders : List String
  cells : List (List (Option Int))
deriving DecidableEq

def padList {α : Type} (l : List α) (n : Nat) (x : α) : List α :=
  l ++ List.replicate (n - l.length) x

def setIdx {α : Type} : List α → Nat → α → List α
  | [], _, _ => []
  | _ :: t, 0, v => v :: t
  | h :: t, n + 1, v => h :: setIdx t n v

def getIdx {α : Type} (d : α) : List α → Nat → α
  | [], _ => d
  | h :: _, 0 => h
  | _ :: t, n + 1 => getIdx d t n

/-- Read data cell (i, j), that is sheet cell (row i+3, column j+2); unset
cells read as `None`. -/
def getCell (w : Ws) (i j : Nat) : Option Int :=
  getIdx none (getIdx [] w.cells i) j

/-- Write data cell (i, j), materializing the cell as openpyxl does on
assignment. -/
def setCell (w : Ws) (i j : Nat) (v : Option Int) : Ws :=
  let cs := padList w.cells (i + 1) []
  { w with cells := setIdx cs i (setIdx (padList (getIdx [] cs i) (j + 1) none) j v) }

/-- The create-new-workbook branch of `create_or_update_summary_list`
(lines 460-515): title and headers, one header per date, the fixed region
rows, and no data cell set; styling is not modelled. -/
def new_summary_ws (all_dates : List PyDate) : Ws :=
  { rowLabels := regions
  , colHeaders := all_dates.map format_date_header
  , cells := [] }

/-- One step of the update loop of `create_or_update_summary_list`
(lines 534-559): locate the date's column by rendered-header equality; a
missing column is skipped with a warning; otherwise add the increment to
the current value, an empty cell counting as 0. -/
def upd_step (r : Nat) (w : Ws) (dc : PyDate × Int) : Ws :=
  match w.colHeaders.findIdx? (fun h => h == format_date_header dc.1) with
  | none => w
  | some j => setCell w r j (some ((getCell w r j).getD 0 + dc.2))

/-- `create_or_update_summary_list` (lines 417-562) at the worksheet level:
take the loaded summary workbook, or a fresh one when the file does not
exist; locate the region's row by column-A label equality — an unmatched
region saves and returns with the table unchanged — then fold the update
loop over the date increments and save.  File I/O and styling are outside
the model; the `existing_dates` reconstruction of lines 441-458 only feeds
log messages and is dead for the table contents. -/
def create_or_update_summary_list (existing : Option Ws) (region : String)
    (date_counts : List (PyDate × Int)) (all_dates : List PyDate) : Ws :=
  let ws := match existing with
    | some w => w
    | none => new_summary_ws all_dates
  match ws.rowLabels.findIdx? (fun x => x == region) with
  | none => ws
  | some r => date_counts.foldl (upd_step r) ws

/-- The global `region_date_counts` dictionary — region, then date, then
count — as insertion-ordered association lists. -/
abbrev Ledger := List (String × List (PyDate × Nat))

/-- `region_date_counts.get(reg, emptydict).get(date, None)`. -/
def ledgerGet (L : Ledger) (reg : String) (d : PyDate) : Option Nat :=
  match L.find? (fun p => p.1 == reg) with
  | some p => (p.2.find? (fun q => q.1 == d)).map (fun q => q.2)
  | none => none

def insertSorted (x : Nat) : List Nat → List Nat
  | [] => [x]
  | h :: t => if x ≤ h then x :: h :: t else h :: insertSorted x t

/-- Ascending insertion sort, for Python `sorted`. -/
def sortNats (l : List Nat) : List Nat := l.foldr insertSorted []

/-- The title computation of `write_full_summary_list` (lines 17-24), from
the sorted set of years occurring in `all_dates`. -/
def summaryTitle (all_dates : List PyDate) : String :=
  let years := sortNats (all_dates.map (fun d => d.year)).dedup
  match years with
  | [] => "Daily Monitoring - Entry Count"
  | [y] => toString y ++ " Daily Monitoring - Entry Count"
  | y :: rest =>
    toString y ++ "-" ++ toString (rest.getLastD y) ++ " Daily Monitoring - Entry Count"

/-- The freshly rebuilt summary workbook of `write_full_summary_list`:
merged title, corner header, date headers, fixed region row labels, and the
data grid (row i for `regions` index i, column j for date index j). -/
structure SummaryWs where
  title : String
  cornerHeader : String
  colHeaders : List String
  rowLabels : List String
  cells : List (List (Option Nat))
deriving DecidableEq

/-- `write_full_summary_list` (lines 1-75): always a brand-new workbook; one
column per given date in the given order; a data cell receives the ledger
count when it is present and nonzero and stays empty (`None`) otherwise;
borders, fonts and file I/O are not modelled. -/
def write_full_summary_list (region_date_counts : Ledger)
    (all_dates : List PyDate) : SummaryWs :=
  { title := summaryTitle all_dates
  , cornerHeader := "REGIONS"
  , colHeaders := all_dates.map format_date_header
  , rowLabels := regions
  , cells := regions.map (fun reg => all_dates.map (fun d =>
      match ledgerGet region_date_counts reg d with
      | some v => if v != 0 then some v else none
      | none => none)) }

/-- `region_date_counts[reg][dte] += 1` on nested defaultdicts: bump the
count, appending new entries in insertion order. -/
def bumpDate : List (PyDate × Nat) → PyDate → List (PyDate × Nat)
  | [], d => [(d, 1)]
  | q :: rest, d => if q.1 == d then (q.1, q.2 + 1) :: rest else q :: bumpDate rest d

def bumpLedger : Ledger → String → PyDate → Ledger
  | [], reg, d => [(reg, [(d, 1)])]
  | p :: rest, reg, d =>
    if p.1 == reg then (p.1, bumpDate p.2 d) :: rest else p :: bumpLedger rest reg d

/-- One worksheet as pandas delivers it after `skiprows=2`: its name, the
frame's column count, and the data rows; a cell beyond a row's literal
length reads as NaN, as pandas pads ragged rows. -/
structure Sheet where
  name : String
  ncols : Nat
  rows : List (List Cell)
deriving DecidableEq

/-- Cell at index `i` of a row, NaN when absent. -/
def cellAt (row : List Cell) (i : Nat) : Cell := row.getD i .nan

/-- The status filter on column index 5 (lines 745-747): non-null, not the
literal hyphen, and case-insensitively `local` or `imported` after
stripping; a non-string cell never passes the final `isin` test on its
`str` rendering. -/
def statusKeep (c : Cell) : Bool :=
  match c with
  | .text s =>
    s != "-" && (let t := pyLower (pyStrip s); t == "local" || t == "imported")
  | _ => false

/-- Python word characters (the inputs are ASCII). -/
def isWordChar (c : Char) : Bool := c.isAlpha || c.isDigit || c == '_'

/-- Splits of a maximal leading word-character run, longest first: the
regex engine's backtracking order for a greedy `\w+`. -/
def wordSplits (cs : List Char) : List (List Char × List Char) :=
  let run := (cs.takeWhile isWordChar).length
  (List.range run).map (fun i => (cs.take (run - i), cs.drop (run - i)))

/-- Consume `\.?\s*` outside a capture.  Both the optional dot and the
whitespace are forced here, because a digit must follow and neither a dot
nor whitespace is a digit. -/
def dropDotWs (cs : List Char) : List Char :=
  (match cs with
   | '.' :: r => r
   | _ => cs).dropWhile isSpaceChar

/-- Consume `\.?\s*` inside the optional third capture group, also
returning the consumed text, which the group captures. -/
def dotWsSplit (cs : List Char) : List Char × List Char :=
  match cs with
  | '.' :: r => ('.' :: r.takeWhile isSpaceChar, r.dropWhile isSpaceChar)
  | _ => (cs.takeWhile isSpaceChar, cs.dropWhile isSpaceChar)

/-- Candidates for the `(\w+\.?\s*)?(\d+)` tail of the sheet-name pattern:
(group-3 capture, rest at the final digits), in the regex engine's priority
order — participation before skip, longer word runs first. -/
def tailCandidates (cs : List Char) : List (Option (List Char) × List Char) :=
  ((wordSplits cs).map (fun p =>
    let q := dotWsSplit p.2
    (some (p.1 ++ q.1), q.2))) ++ [(none, cs)]

def firstDigitRun (cs : List Char) : Option (List Char) :=
  let ds := cs.takeWhile Char.isDigit
  if ds.isEmpty then none else some ds

/-- The sheet-name pattern `(\w+)\.?\s*(\d+)[dash](\w+\.?\s*)?(\d+)`
anchored at the current position, returning the four captures (the second
is unused by the source).  Group 2's greedy digits and the dash are forced;
group 1 backtracks longest-first; the tail candidates carry group 3's
priority order. -/
def sheetPatternAt (cs : List Char) :
    Option (List Char × List Char × Option (List Char) × List Char) :=
  (wordSplits cs).findSome? (fun p =>
    let r1 := dropDotWs p.2
    let ds := r1.takeWhile Char.isDigit
    if ds.isEmpty then none
    else
      match r1.drop ds.length with
      | c :: r2 =>
        if rangeSepChar c then
          (tailCandidates r2).findSome? (fun t =>
            match firstDigitRun t.2 with
            | some g4 => some (p.1, ds, t.1, g4)
            | none => none)
        else none
      | [] => none)

/-- `re.search` of the sheet-name pattern (line 754): the match at the
leftmost feasible start position. -/
def sheetSearch : List Char → Option (List Char × List Char × Option (List Char) × List Char)
  | [] => none
  | c :: rest =>
    match sheetPatternAt (c :: rest) with
    | some m => some m
    | none => sheetSearch rest

def monthAbbrsLower : List String :=
  ["jan", "feb", "mar", "apr", "may", "jun",
   "jul", "aug", "sep", "oct", "nov", "dec"]

def monthNamesLower : List String :=
  ["january", "february", "march", "april", "may", "june", "july",
   "august", "september", "october", "november", "december"]

/-- Month number from a lower-cased name in the given list. -/
def monthFromLower (l : List String) (s : String) : Option Nat :=
  (l.findIdx? (fun x => x == s)).map (fun i => i + 1)

/-- The all-dates-missing recovery of `process_excels` (lines 751-774):
search the sheet name for a `month day dash (month?) day` expression, parse
the second month word when present, else the first — `strptime` with `%b`
on its first three characters, then `%B` on the whole, both
case-insensitive — and build the end date in the current year.  Any parse
or `date(...)` failure is caught and logged, yielding nothing. -/
def sheetNameEndDate (nowYear : Nat) (name : String) : Option PyDate :=
  match sheetSearch name.data with
  | none => none
  | some (g1, _, g3, g4) =>
    let month_str := pyStrip (String.mk (match g3 with | some w => w | none => g1))
    let mLow := pyLower month_str
    match monthFromLower monthAbbrsLower (String.mk (mLow.data.take 3)) with
    | some m => mkPyDate nowYear m (digitsVal g4)
    | none =>
      match monthFromLower monthNamesLower mLow with
      | some m => mkPyDate nowYear m (digitsVal g4)
      | none => none

/-- Per-sheet extraction of `process_excels` (lines 735-799): a sheet with
fewer than 6 columns is skipped (the second width check at line 740 is
unreachable); rows pass the status filter; the date column goes through
`fix_date`; when every parsed date is missing — vacuously so for an empty
frame — an end date recovered from the sheet name is assigned to every
surviving row; rows without a date are dropped; each surviving row yields
one (date, normalized region) observation.  The per-row guard of line 791
always passes: the date survived the missing-date filter and
`normalize_region` returns a nonempty string. -/
def extractSheet (nowYear : Nat) (sh : Sheet) : List (PyDate × String) :=
  if sh.ncols < 6 then []
  else
    let rows1 := sh.rows.filter (fun r => statusKeep (cellAt r 5))
    let dated := rows1.map (fun r => (fix_date (cellAt r 0), r))
    let dated :=
      if dated.all (fun p => p.1.isNone) then
        match sheetNameEndDate nowYear sh.name with
        | some d => rows1.map (fun r => (some d, r))
        | none => dated
      else dated
    dated.filterMap (fun p => p.1.map (fun d => (d, normalize_region (cellAt p.2 4))))

/-- One spreadsheet file: its basename and its sheets.  An outer `none`
models a file whose sheets cannot be enumerated (`pd.ExcelFile` raising at
lines 712-718); an inner `none` models a single sheet that fails to read
(lines 727-734) and is simply absent from the processed dictionary. -/
structure XFile where
  name : String
  sheets : Option (List (Option Sheet))
deriving DecidableEq

/-- The pipeline state mutated per file: the processed-file set
`recorded_files` and the global `region_date_counts` ledger. -/
structure PState where
  recorded : List String
  ledger : Ledger
deriving DecidableEq

/-- `recorded_files.add(filename)`. -/
def addRecorded (rec : List String) (n : String) : List String :=
  if rec.contains n then rec else rec ++ [n]

/-- The per-file body of `process_excels` (lines 705-858): a file whose
sheets cannot be enumerated is skipped by the `continue` of line 718,
leaving the state unchanged; otherwise every readable sheet is extracted in
order; a file with no valid observation in any sheet is skipped by the
`continue` of line 804 before `recorded_files.add` at line 819; otherwise
each observation bumps the global ledger and the filename is recorded.  The
file move and the `file_amounts.txt` and `recorded_files.json` writes are
I/O effects outside this state. -/
def processFile (nowYear : Nat) (st : PState) (f : XFile) : PState :=
  match f.sheets with
  | none => st
  | some sheets =>
    let obs := ((sheets.filterMap id).map (extractSheet nowYear)).flatten
    if obs.isEmpty then st
    else
      { recorded := addRecorded st.recorded f.name
      , ledger := obs.foldl (fun L o => bumpLedger L o.2 o.1) st.ledger }

/-- The processing loop of `process_excels` (lines 605-862): files whose
basename is already in `recorded_files` are filtered out up front at
line 606, and the remaining files are folded through `processFile`,
starting from the loaded processed-file set and the run's fresh ledger
(line 697).  The early returns of lines 593-603 — no dates found anywhere,
or no files at all — abort before this loop with no file processed. -/
def process_excels (nowYear : Nat) (recorded_files : List String)
    (files : List XFile) : PState :=
  let files_to_process := files.filter (fun f => !(recorded_files.contains f.name))
  files_to_process.foldl (processFile nowYear) ⟨recorded_files, []⟩

/-- A sheet with one valid row: status `local`, region NCR, an ISO date. -/
def sheetA : Sheet :=
  ⟨"Sheet1", 6, [[.text "2024-03-07", .empty, .empty, .empty, .text "NCR", .text "local"]]⟩

/-- A readable file contributing one observation. -/
def fileA : XFile := ⟨"a.xlsx", some [some sheetA]⟩

/-- A sheet whose only row has the placeholder hyphen status, so it yields
no observation. -/
def sheetDash : Sheet :=
  ⟨"Sheet1", 6, [[.text "2024-03-07", .empty, .empty, .empty, .text "NCR", .text "-"]]⟩

/-- A readable file that yields zero valid observations. -/
def fileNoObs : XFile := ⟨"noobs.xlsx", some [some sheetDash]⟩

/-- A file whose sheets cannot be enumerated. -/
def fileBad : XFile := ⟨"bad.xlsx", none⟩

theorem getIdx_map {α β : Type} (f : α → β) (d : β) (d0 : α) (l : List α) (i : Nat)
    (h : i < l.length) : getIdx d (l.map f) i = f (getIdx d0 l i) := by
  induction l generalizing i with
  | nil => exact absurd h (by simp)
  | cons a t ih =>
    cases i with
    | zero => rfl
    | succ n => exact ih n (Nat.lt_of_succ_lt_succ h)

theorem getIdx_setIdx_self {α : Type} (d : α) (l : List α) (i : Nat) (v : α)
    (h : i < l.length) : getIdx d (setIdx l i v) i = v := by
  induction l generalizing i with
  | nil => exact absurd h (by simp)
  | cons a t ih =>
    cases i with
    | zero => rfl
    | succ n => exact ih n (Nat.lt_of_succ_lt_succ h)

theorem padList_length {α : Type} (l : List α) (n : Nat) (x : α) :
    (padList l n x).length = max l.length n := by
  simp [padList]
  omega

theorem getCell_setCell_self (w : Ws) (i j : Nat) (v : Option Int) :
    getCell (setCell w i j v) i j = v := by
  unfold getCell setCell
  have h1 : i < (padList w.cells (i + 1) ([] : List (Option Int))).length := by
    rw [padList_length]
    omega
  rw [getIdx_setIdx_self _ _ _ _ h1]
  have h2 : j < (padList (getIdx [] (padList w.cells (i + 1) []) i) (j + 1)
      (none : Option Int)).length := by
    rw [padList_length]
    omega
  exact getIdx_setIdx_self _ _ _ _ h2

theorem setCell_rowLabels (w : Ws) (i j : Nat) (v : Option Int) :
    (setCell w i j v).rowLabels = w.rowLabels := rfl

theorem setCell_colHeaders (w : Ws) (i j : Nat) (v : Option Int) :
    (setCell w i j v).colHeaders = w.colHeaders := rfl

theorem lookupRegionNorm_mem (k : String) (l : List (String × List String)) (std : String)
    (h : lookupRegionNorm k l = some std) : std ∈ l.map Prod.fst := by
  induction l with
  | nil => exact absurd h (by simp [lookupRegionNorm])
  | cons p rest ih =>
    rw [lookupRegionNorm] at h
    split at h
    · simp only [Option.some.injEq] at h
      simp [h]
    · simpa using Or.inr (ih h)

theorem region_map_alias_sound :
    ∀ p ∈ region_map, ∀ a ∈ p.2,
      lookupRegionNorm (alias_norm a) region_map = some p.1 ∧ alias_norm a ≠ "" := by
  decide

theorem normalizeRegionStr_mem (s : String) : normalizeRegionStr s ∈ regions := by
  unfold normalizeRegionStr
  by_cases h : pyStrip s = ""
  · rw [if_pos h]
    decide
  · rw [if_neg h]
    have hsub : ∀ x ∈ region_map.map Prod.fst, x ∈ regions := by decide
    cases hl : lookupRegionNorm (String.mk (canonChars (pyStrip s).data)) region_map with
    | some std =>
      simp only [hl]
      exact hsub std (lookupRegionNorm_mem _ _ _ hl)
    | none =>
      simp only [hl]
      split
      · decide
      · split
        · decide
        · decide

/-- C2, counterexample: the claim states that serial 59 yields 1900-02-28
and serial 60 yields 1900-03-01; on the code serial 59 yields 1900-02-27
and serial 60 yields 1900-02-28, because the source's two epoch branches
compute the same date (1899-12-31 plus n-1 days equals 1899-12-30 plus n
days), so no correction boundary exists at 60. -/
theorem fix_date_serial_cex :
    fix_date (.num 59) = some ⟨1900, 2, 27⟩ ∧
    (⟨1900, 2, 27⟩ : PyDate) ≠ ⟨1900, 2, 28⟩ ∧
    fix_date (.num 60) = some ⟨1900, 2, 28⟩ ∧
    (⟨1900, 2, 28⟩ : PyDate) ≠ ⟨1900, 3, 1⟩ := by
  decide

/-- C2 (amended): Excel serial-date conversion in `fix_date`: numeric input
1 yields 1899-12-31, numeric input 59 yields 1900-02-27, numeric input 60
yields 1900-02-28 (the two epoch branches coincide, so the fake-leap-day
correction has no effect), and every non-positive numeric input yields
`None`. -/
theorem fix_date_serial_spec :
    fix_date (.num 1) = some ⟨1899, 12, 31⟩ ∧
    fix_date (.num 59) = some ⟨1900, 2, 27⟩ ∧
    fix_date (.num 60) = some ⟨1900, 2, 28⟩ ∧
    ∀ n : Int, n ≤ 0 → fix_date (.num n) = none := by
  refine ⟨by decide, by decide, by decide, ?_⟩
  intro n hn
  show fixDateSerial n = none
  unfold fixDateSerial
  rw [if_neg (by omega)]

/-- C2, witness: the amended theorem applied at the non-positive serial -7. -/
theorem fix_date_serial_spec_witness : fix_date (.num (-7)) = none :=
  fix_date_serial_spec.2.2.2 (-7) (by decide)

/-- C3: date-range parsing in `fix_date`: a full range string yields the end
date of the range, and a short trailing-day range yields the end day in the
start's year and month unless the trailing day is numerically less than the
start day, in which case the month rolls forward and the year rolls past
December. -/
theorem fix_date_range_spec :
    fix_date (.text "2024/10/01-2024/10/15") = some ⟨2024, 10, 15⟩ ∧
    fix_date (.text "2024/10/04-10") = some ⟨2024, 10, 10⟩ ∧
    fix_date (.text "2024/10/28-05") = some ⟨2024, 11, 5⟩ ∧
    fix_date (.text "2024/12/28-05") = some ⟨2025, 1, 5⟩ := by
  decide

/-- C8: region alias idempotence: for every canonical region and every alias
listed for it in `region_map`, every spelling variant of that alias with the
same normal form — equal after upper-casing and deleting spaces and
hyphens, which is exactly what letter-case, space and hyphen variations
leave invariant — normalizes to that canonical region. -/
theorem normalize_region_alias (std : String) (aliases : List String) (a v : String)
    (hm : (std, aliases) ∈ region_map) (ha : a ∈ aliases)
    (hv : alias_norm v = alias_norm a) :
    normalize_region (.text v) = std := by
  obtain ⟨hlook, hne⟩ := region_map_alias_sound (std, aliases) hm a ha
  have hvne : alias_norm v ≠ "" := by
    rw [hv]
    exact hne
  have hstrip : pyStrip v ≠ "" := by
    intro h0
    apply hvne
    show String.mk (canonChars (trimChars v.data)) = ""
    have hdat : trimChars v.data = [] := congrArg String.data h0
    rw [hdat]
    rfl
  show normalizeRegionStr v = std
  unfold normalizeRegionStr
  rw [if_neg hstrip]
  have hkey : String.mk (canonChars (pyStrip v).data) = alias_norm v := rfl
  simp only [hkey, hv, hlook]

/-- C8, witness: the sub-region spelling "4-b", a case and hyphenation
variant of the listed alias "4B", maps to Region IV, the parent region. -/
theorem normalize_region_alias_witness : normalize_region (.text "4-b") = "Region IV" :=
  normalize_region_alias "Region IV"
    ["REGION 4", "REGION IV", "IV", "4", "REGION4", "REGIONIV",
     "REGION 4A", "REGION IV-A", "IV-A", "4A", "IVA", "REGION4A", "REGIONIVA",
     "REGION 4B", "REGION IV-B", "IV-B", "4B", "IVB", "REGION4B", "REGIONIVB",
     "REGIONIV-B", "REGION IVB", "REGION IV B", "REGION 4 B", "4-B", "IV B",
     "IV-B", "4-B", "IVB", "4 B"] "4B" "4-b" (by decide) (by decide) (by decide)

/-- C9: region normalization never signals absence: unmatched free text,
the empty and the blank string, `None` and NaN all yield Unidentified, and
every input whatsoever yields one of the 18 canonical regions — the
function is total and never returns an error or `None`. -/
theorem normalize_region_total :
    normalize_region (.text "Zzyx") = "Unidentified" ∧
    normalize_region (.text "") = "Unidentified" ∧
    normalize_region (.text "   ") = "Unidentified" ∧
    normalize_region .empty = "Unidentified" ∧
    normalize_region .nan = "Unidentified" ∧
    ∀ c : Cell, normalize_region c ∈ regions := by
  refine ⟨by decide, by decide, by decide, rfl, rfl, ?_⟩
  intro c
  cases c with
  | text s => exact normalizeRegionStr_mem s
  | num n => exact normalizeRegionStr_mem _
  | nan => decide
  | date d => exact normalizeRegionStr_mem _
  | empty => decide

/-- C5: full-rebuild summary generation: for every ledger and date list the
table has the 18 canonical regions as row labels in the fixed order, one
column per given date with its rendered day-month header, and the data cell
at (i, j) holds the ledger count of region i at date j exactly when that
count is present and nonzero, remaining empty otherwise. -/
theorem write_full_summary_cells (L : Ledger) (ds : List PyDate) (i j : Nat)
    (hi : i < regions.length) (hj : j < ds.length) :
    (write_full_summary_list L ds).rowLabels = regions ∧
    regions.length = 18 ∧
    (write_full_summary_list L ds).colHeaders = ds.map format_date_header ∧
    getIdx none (getIdx [] (write_full_summary_list L ds).cells i) j =
      (match ledgerGet L (getIdx "" regions i) (getIdx ⟨0, 0, 0⟩ ds j) with
       | some v => if v != 0 then some v else none
       | none => none) := by
  refine ⟨rfl, rfl, rfl, ?_⟩
  show getIdx none (getIdx [] (regions.map (fun reg => ds.map (fun d =>
      match ledgerGet L reg d with
      | some v => if v != 0 then some v else none
      | none => none))) i) j = _
  rw [getIdx_map (fun reg => ds.map (fun d =>
      match ledgerGet L reg d with
      | some v => if v != 0 then some v else none
      | none => none)) ([] : List (Option Nat)) "" regions i hi]
  exact getIdx_map (fun d =>
      match ledgerGet L (getIdx "" regions i) d with
      | some v => if v != 0 then some v else none
      | none => none) none ⟨0, 0, 0⟩ ds j hj

/-- C5, witness: the ledger NCR to {2024-03-07 to 3} with known dates
[2024-03-07] yields the single column header "7-Mar", the count 3 in NCR's
row, and an empty cell in the next region's row of that column. -/
theorem write_full_summary_cells_witness :
    (write_full_summary_list [("NCR", [(⟨2024, 3, 7⟩, 3)])] [⟨2024, 3, 7⟩]).colHeaders
      = ["7-Mar"] ∧
    getIdx none (getIdx []
      (write_full_summary_list [("NCR", [(⟨2024, 3, 7⟩, 3)])] [⟨2024, 3, 7⟩]).cells 0) 0
      = some 3 ∧
    getIdx none (getIdx []
      (write_full_summary_list [("NCR", [(⟨2024, 3, 7⟩, 3)])] [⟨2024, 3, 7⟩]).cells 1) 0
      = none := by
  refine ⟨?_, ?_, ?_⟩
  · exact (write_full_summary_cells [("NCR", [(⟨2024, 3, 7⟩, 3)])] [⟨2024, 3, 7⟩]
      0 0 (by decide) (by decide)).2.2.1.trans (by decide)
  · exact (write_full_summary_cells [("NCR", [(⟨2024, 3, 7⟩, 3)])] [⟨2024, 3, 7⟩]
      0 0 (by decide) (by decide)).2.2.2.trans (by decide)
  · exact (write_full_summary_cells [("NCR", [(⟨2024, 3, 7⟩, 3)])] [⟨2024, 3, 7⟩]
      1 0 (by decide) (by decide)).2.2.2.trans (by decide)

/-- C4: the incremental update is additive, not overwrite: with the region's
row and the date's rendered-header column both present in the table, one
application adds the increment to the value already stored (an empty cell
counting as 0), and a second application of the same increment adds it
again, doubling the stored contribution. -/
theorem create_or_update_additive (ws : Ws) (region : String) (d : PyDate) (c : Int)
    (r j : Nat)
    (hr : ws.rowLabels.findIdx? (fun x => x == region) = some r)
    (hc : ws.colHeaders.findIdx? (fun h => h == format_date_header d) = some j) :
    getCell (create_or_update_summary_list (some ws) region [(d, c)] []) r j
      = some ((getCell ws r j).getD 0 + c) ∧
    getCell (create_or_update_summary_list
        (some (create_or_update_summary_list (some ws) region [(d, c)] []))
        region [(d, c)] []) r j
      = some ((getCell ws r j).getD 0 + c + c) := by
  have e1 : create_or_update_summary_list (some ws) region [(d, c)] [] =
      setCell ws r j (some ((getCell ws r j).getD 0 + c)) := by
    unfold create_or_update_summary_list
    simp only [hr]
    show upd_step r ws (d, c) = _
    unfold upd_step
    simp only [hc]
  have w1eq := e1
  set w1 := create_or_update_summary_list (some ws) region [(d, c)] [] with hw1
  have hget1 : getCell w1 r j = some ((getCell ws r j).getD 0 + c) := by
    rw [w1eq]
    exact getCell_setCell_self ws r j _
  have hr1 : w1.rowLabels.findIdx? (fun x => x == region) = some r := by
    rw [w1eq]
    exact hr
  have hc1 : w1.colHeaders.findIdx? (fun h => h == format_date_header d) = some j := by
    rw [w1eq]
    exact hc
  have e2 : create_or_update_summary_list (some w1) region [(d, c)] [] =
      setCell w1 r j (some ((getCell w1 r j).getD 0 + c)) := by
    unfold create_or_update_summary_list
    simp only [hr1]
    show upd_step r w1 (d, c) = _
    unfold upd_step
    simp only [hc1]
  refine ⟨hget1, ?_⟩
  rw [e2, getCell_setCell_self, hget1]
  simp

/-- C4, witness: on a one-cell table with NCR's row and the "7-Mar" column,
adding the increment 2 twice stores 2 and then 4. -/
theorem create_or_update_additive_witness :
    getCell (create_or_update_summary_list (some ⟨["NCR"], ["7-Mar"], [[none]]⟩)
      "NCR" [(⟨2025, 3, 7⟩, 2)] []) 0 0 = some 2 ∧
    getCell (create_or_update_summary_list
      (some (create_or_update_summary_list (some ⟨["NCR"], ["7-Mar"], [[none]]⟩)
        "NCR" [(⟨2025, 3, 7⟩, 2)] []))
      "NCR" [(⟨2025, 3, 7⟩, 2)] []) 0 0 = some 4 := by
  have h := create_or_update_additive ⟨["NCR"], ["7-Mar"], [[none]]⟩ "NCR"
    ⟨2025, 3, 7⟩ 2 0 0 (by decide) (by decide)
  exact ⟨h.1.trans (by decide), h.2.trans (by decide)⟩

/-- C10: frame effect of the incremental update: a region label matching no
row label in column A leaves the table exactly as loaded (the workbook is
saved and the function returns with no cell modified), and a date whose
rendered day-month header matches no existing column header is skipped,
contributing nothing to any cell. -/
theorem create_or_update_frame (ws : Ws) (region : String) (d : PyDate) (c : Int)
    (rest date_counts : List (PyDate × Int)) :
    (ws.rowLabels.findIdx? (fun x => x == region) = none →
      create_or_update_summary_list (some ws) region date_counts [] = ws) ∧
    (ws.colHeaders.findIdx? (fun h => h == format_date_header d) = none →
      create_or_update_summary_list (some ws) region ((d, c) :: rest) [] =
        create_or_update_summary_list (some ws) region rest []) := by
  constructor
  · intro h
    unfold create_or_update_summary_list
    simp only [h]
  · intro h
    simp only [create_or_update_summary_list]
    cases hr : ws.rowLabels.findIdx? (fun x => x == region) with
    | none => rfl
    | some r =>
      have hstep : upd_step r ws (d, c) = ws := by
        unfold upd_step
        simp only [h]
      show List.foldl (upd_step r) (upd_step r ws (d, c)) rest =
        List.foldl (upd_step r) ws rest
      rw [hstep]

/-- C10, witness: on a one-cell table holding 5, an unknown region label
leaves the table unchanged, and a date rendering to an absent header
("2-Jan") leaves it unchanged as well. -/
theorem create_or_update_frame_witness :
    create_or_update_summary_list (some ⟨["NCR"], ["7-Mar"], [[some 5]]⟩)
      "Nowhere" [(⟨2025, 3, 7⟩, 2)] [] = ⟨["NCR"], ["7-Mar"], [[some 5]]⟩ ∧
    create_or_update_summary_list (some ⟨["NCR"], ["7-Mar"], [[some 5]]⟩)
      "NCR" [(⟨2025, 1, 2⟩, 2)] [] = ⟨["NCR"], ["7-Mar"], [[some 5]]⟩ := by
  constructor
  · exact (create_or_update_frame ⟨["NCR"], ["7-Mar"], [[some 5]]⟩ "Nowhere"
      ⟨2025, 3, 7⟩ 2 [] [(⟨2025, 3, 7⟩, 2)]).1 (by decide)
  · exact ((create_or_update_frame ⟨["NCR"], ["7-Mar"], [[some 5]]⟩ "NCR"
      ⟨2025, 1, 2⟩ 2 [] []).2 (by decide)).trans (by decide)

/-- C1: at-most-once counting: a file whose basename is already in the
loaded `recorded_files` set is filtered out of `files_to_process` before
any processing, so including it changes nothing; in particular a rerun in
which every file is already recorded is a no-op on totals — the recorded
set comes back unchanged and the run's ledger stays empty. -/
theorem process_excels_skip_recorded (y : Nat) (rec : List String) (f : XFile)
    (files : List XFile) :
    (f.name ∈ rec → process_excels y rec (f :: files) = process_excels y rec files) ∧
    ((∀ g ∈ files, g.name ∈ rec) → process_excels y rec files = ⟨rec, []⟩) := by
  constructor
  · intro h
    unfold process_excels
    simp [List.filter_cons, h]
  · intro h
    have hnil : files.filter (fun g => !(rec.contains g.name)) = [] := by
      refine List.filter_eq_nil_iff.mpr ?_
      intro g hg
      simp [h g hg]
    unfold process_excels
    simp only [hnil]
    rfl

/-- C1, witness: rerunning over a single file already recorded leaves the
recorded set unchanged and produces an empty ledger. -/
theorem process_excels_skip_recorded_witness :
    process_excels 2025 ["a.xlsx"] [fileA] = ⟨["a.xlsx"], []⟩ :=
  ((process_excels_skip_recorded 2025 ["a.xlsx"] fileA []).1 (by decide)).trans
    ((process_excels_skip_recorded 2025 ["a.xlsx"] fileA []).2 (by simp))

/-- C6, counterexample: a file that is read successfully but whose sheets
yield zero valid observations — here the only row's status cell is the
placeholder hyphen — is NOT added to the processed set: the per-file body
skips it at line 804 before `recorded_files.add` at line 819, while the
claim says it is still marked processed. -/
theorem process_file_no_obs_cex :
    fileNoObs.sheets ≠ none ∧
    extractSheet 2025 sheetDash = [] ∧
    (processFile 2025 ⟨[], []⟩ fileNoObs).recorded = [] := by
  decide

/-- C6 (amended): a file that is read successfully but yields zero valid
observations is NOT marked processed: the pipeline skips it — logging "No
valid data in any sheet" — before adding its name to the ProcessedFileSet,
leaving the state unchanged and the file eligible to be processed again on
a later run. -/
theorem process_file_no_obs (y : Nat) (st : PState) (f : XFile)
    (sheets : List (Option Sheet)) (hs : f.sheets = some sheets)
    (hobs : ((sheets.filterMap id).map (extractSheet y)).flatten = []) :
    processFile y st f = st := by
  unfold processFile
  rw [hs]
  simp only [hobs]
  rfl

/-- C6, witness: the amended theorem on the concrete zero-observation file,
starting from a nonempty state. -/
theorem process_file_no_obs_witness :
    processFile 2025 ⟨["b.xlsx"], [("NCR", [(⟨2024, 3, 7⟩, 1)])]⟩ fileNoObs
      = ⟨["b.xlsx"], [("NCR", [(⟨2024, 3, 7⟩, 1)])]⟩ :=
  process_file_no_obs 2025 ⟨["b.xlsx"], [("NCR", [(⟨2024, 3, 7⟩, 1)])]⟩ fileNoObs
    [some sheetDash] rfl (by decide)

/-- C7: a file whose sheets cannot be enumerated is skipped without being
marked processed: the `continue` of line 718 leaves the state — processed
set and ledger — exactly as it was, so the file contributes nothing and
remains eligible for retry on a later run. -/
theorem process_file_unreadable (y : Nat) (st : PState) (f : XFile)
    (h : f.sheets = none) : processFile y st f = st := by
  unfold processFile
  rw [h]

/-- C7, witness: the theorem on a concrete unreadable file and a nonempty
state. -/
theorem process_file_unreadable_witness :
    processFile 2025 ⟨["a.xlsx"], [("NCR", [(⟨2024, 3, 7⟩, 2)])]⟩ fileBad
      = ⟨["a.xlsx"], [("NCR", [(⟨2024, 3, 7⟩, 2)])]⟩ :=
  process_file_unreadable 2025 ⟨["a.xlsx"], [("NCR", [(⟨2024, 3, 7⟩, 2)])]⟩ fileBad rfl
